import Mathlib

/-!
Verification of the state-to-narrative derivation engine of
`src/backend/game_state_manager.py`: crisis classification
(`get_crisis_level`), resource-status labeling (`get_resource_status`),
narrative directive composition (`generate_scene_prompt` together with
`generate_consequence_context`), the disabled consequence application
(`apply_choice_consequences`) and death handling (`handle_death`).

Modelling conventions:
* Python non-negative integer fields become `Nat`; the spec invariants
  (`max_health ≥ 1`, `health ≤ max_health`, `corruption ≤ 100`, `level ≥ 1`)
  become the predicate `PlayerState.valid`.
* The Python float comparison `health / max_health ≤ c` (for the literals
  0.25, 0.4, 0.5, 0.7) is modelled exactly, by cross multiplication over
  `Nat` (`health / max_health ≤ p / q  ↔  q * health ≤ p * max_health`,
  valid since `max_health ≥ 1`).
* Python dicts that only carry the four fixed resource keys become a
  record; the transient `last_choice_consequences` dict becomes an
  association list of `PyVal` (int-or-string values) with a renderer
  mirroring Python's `str(dict)`.
* `None`-able string parameters become `Option String`; Python's
  truthiness test `if previous_choice:` also treats `""` as false, which
  the model reproduces.
-/

/-- The five crisis levels of `CrisisLevel(Enum)` (lines 13-18). -/
inductive CrisisLevel where
  | thriving
  | stable
  | struggling
  | desperate
  | critical
  deriving Repr, DecidableEq

/-- The `.value` string of each `CrisisLevel` member. -/
def CrisisLevel.value : CrisisLevel → String
  | .thriving => "thriving"
  | .stable => "stable"
  | .struggling => "struggling"
  | .desperate => "desperate"
  | .critical => "critical"

/-- Severity rank: `critical > desperate > struggling > stable > thriving`. -/
def severity : CrisisLevel → Nat
  | .thriving => 0
  | .stable => 1
  | .struggling => 2
  | .desperate => 3
  | .critical => 4

/-- A Python value stored in the `last_choice_consequences` dict: the code
only ever stores ints and strings there. -/
inductive PyVal where
  | int (n : Int)
  | str (v : String)
  deriving Repr, DecidableEq

/-- The dataclass `PlayerState` (lines 32-59), with list/dict fields after
`__post_init__` has replaced the `None` defaults. -/
structure PlayerState where
  health : Nat
  max_health : Nat
  gold : Nat
  food : Nat
  items : List String
  level : Nat
  experience : Nat
  corruption : Nat
  reputation : String
  deaths : Nat
  scene_history : List String
  curses : List String
  permanent_injuries : List String
  last_choice_consequences : List (String × PyVal)
  deriving Repr, DecidableEq

/-- The default `PlayerState()` (field defaults plus `__post_init__`). -/
def defaultPlayerState : PlayerState where
  health := 100
  max_health := 100
  gold := 10
  food := 3
  items := ["rusty_dagger"]
  level := 1
  experience := 0
  corruption := 0
  reputation := "unknown"
  deaths := 0
  scene_history := []
  curses := []
  permanent_injuries := []
  last_choice_consequences := []

/-- The spec's validity invariants on a `PlayerState` (spec section 3):
`max_health ≥ 1`, `0 ≤ health ≤ max_health`, `0 ≤ corruption ≤ 100`,
`level ≥ 1` (non-negativity of the other fields is built into `Nat`). -/
def PlayerState.valid (s : PlayerState) : Prop :=
  1 ≤ s.max_health ∧ s.health ≤ s.max_health ∧ s.corruption ≤ 100 ∧ 1 ≤ s.level

instance (s : PlayerState) : Decidable s.valid := by
  unfold PlayerState.valid; infer_instance

/-- `GameStateManager.get_crisis_level` (lines 152-173).  The float tests on
`health_ratio = health / max_health` are rendered exactly by cross
multiplication: `ratio ≤ 0.25 ↔ 4*health ≤ max_health`,
`ratio ≤ 0.4 ↔ 5*health ≤ 2*max_health`, `ratio ≤ 0.5 ↔ 2*health ≤ max_health`,
`ratio ≥ 0.7 ↔ 7*max_health ≤ 10*health`. -/
def get_crisis_level (s : PlayerState) : CrisisLevel :=
  if 4 * s.health ≤ s.max_health ∨ s.food = 0 ∨ 3 ≤ s.curses.length then
    .critical
  else if (5 * s.health ≤ 2 * s.max_health ∧ s.food ≤ 1) ∨ 70 ≤ s.corruption then
    .desperate
  else if 2 * s.health ≤ s.max_health ∨ s.food ≤ 1 ∨ s.gold ≤ 5 ∨ 50 ≤ s.corruption then
    .struggling
  else if 7 * s.max_health ≤ 10 * s.health ∧ 2 ≤ s.food ∧ 20 ≤ s.gold then
    .stable
  else
    .thriving

/-- The label dict returned by `get_resource_status`: it always carries
exactly the keys `health`, `food`, `gold`, `corruption`, so it is a record. -/
structure ResourceStatus where
  health : String
  food : String
  gold : String
  corruption : String
  deriving Repr, DecidableEq

/-- The key/value pairs of a `ResourceStatus`, in the insertion order of the
Python dict (`health`, `food`, `gold`, `corruption`). -/
def ResourceStatus.toPairs (r : ResourceStatus) : List (String × String) :=
  [("health", r.health), ("food", r.food), ("gold", r.gold),
   ("corruption", r.corruption)]

/-- `GameStateManager.get_resource_status` (lines 175-209). -/
def get_resource_status (s : PlayerState) : ResourceStatus where
  health :=
    if s.health ≤ 30 then "CRITICAL - near death"
    else if s.health ≤ 60 then "LOW - badly injured"
    else "GOOD - healthy"
  food :=
    if s.food = 0 then "STARVING - immediate danger"
    else if s.food = 1 then "HUNGRY - need food soon"
    else "FED - adequate supplies"
  gold :=
    if s.gold ≤ 5 then "POOR - cannot afford basic items"
    else if s.gold ≤ 20 then "STRUGGLING - limited purchasing power"
    else "WEALTHY - can afford most things"
  corruption :=
    if 70 ≤ s.corruption then "DAMNED - soul nearly lost"
    else if 40 ≤ s.corruption then "CORRUPTED - moral decay spreading"
    else if 20 ≤ s.corruption then "TAINTED - darkness creeping in"
    else "PURE - soul intact"

/-- Python `str` of a value stored in `last_choice_consequences`
(ints bare, strings single-quoted), as used by `str(dict)`. -/
def PyVal.pyRepr : PyVal → String
  | .int n => toString n
  | .str v => "'" ++ v ++ "'"

/-- Python `str` of the `last_choice_consequences` dict, e.g.
`str({'gold': 5})`, with `\x7b`/`\x7d` the brace characters. -/
def pyDictRepr (d : List (String × PyVal)) : String :=
  "\x7b" ++
    String.intercalate ", "
      (d.map (fun kv => "'" ++ kv.1 ++ "': " ++ kv.2.pyRepr)) ++
  "\x7d"

/-- The `problems` list built by `generate_consequence_context`
(lines 229-241), in source order. -/
def problemLines (s : PlayerState) : List String :=
  (if s.food = 0 then ["- STARVING: Player will die soon without food"] else []) ++
  (if s.health ≤ 25 then ["- NEAR DEATH: Any combat could be fatal"] else []) ++
  (if s.gold ≤ 5 then ["- BROKE: Cannot afford basic necessities"] else []) ++
  (if 50 ≤ s.corruption then
    ["- CORRUPTED: Dark choices affecting all interactions"] else []) ++
  (if s.curses ≠ [] then
    ["- CURSED: " ++ String.intercalate ", " s.curses] else []) ++
  (if s.permanent_injuries ≠ [] then
    ["- INJURED: " ++ String.intercalate ", " s.permanent_injuries] else [])

/-- `GameStateManager.generate_consequence_context` (lines 211-253).
Python's `if previous_choice:` is falsy both for `None` and for the empty
string, and `if state.last_choice_consequences:` is falsy for the empty
dict; both are modelled explicitly. -/
def generate_consequence_context (s : PlayerState)
    (previous_choice : Option String) : String :=
  let crisis := get_crisis_level s
  let resources := get_resource_status s
  let context :=
    "\nPLAYER STATE ANALYSIS:\nCrisis Level: " ++ crisis.value.toUpper ++
    "\nHealth: " ++ toString s.health ++ "/" ++ toString s.max_health ++
      " (" ++ resources.health ++ ")" ++
    "\nFood: " ++ toString s.food ++ " (" ++ resources.food ++ ")" ++
    "\nGold: " ++ toString s.gold ++ " (" ++ resources.gold ++ ")" ++
    "\nCorruption: " ++ toString s.corruption ++ "/100 (" ++
      resources.corruption ++ ")" ++
    "\nReputation: " ++ s.reputation.toUpper ++
    "\nLevel: " ++ toString s.level ++ " (XP: " ++ toString s.experience ++
      ")" ++
    "\n\nACTIVE PROBLEMS:\n"
  let problems := problemLines s
  let context :=
    context ++
      (if problems ≠ [] then String.intercalate "\n" problems
       else "- No immediate threats")
  match previous_choice with
  | none => context
  | some p =>
      if p = "" then context
      else
        let context := context ++ "\n\nPREVIOUS ACTION: " ++ p
        if s.last_choice_consequences ≠ [] then
          context ++ "\nCONSEQUENCES: " ++ pyDictRepr s.last_choice_consequences
        else context

/-- The crisis-specific scene-requirement block appended at lines 270-314
(the `if`/`elif` chain on `crisis`, with THRIVING the `else` branch). -/
def scene_requirements : CrisisLevel → String
  | .critical =>
    "\nSURVIVAL MODE - Player is in immediate mortal danger:\n- Create life-or-death scenarios where wrong choice = death\n- Make resources extremely scarce and expensive\n- Show NPCs exploiting player's desperate state\n- Offer high-risk/high-reward options vs safe but costly alternatives\n- Emphasize time pressure and urgency\n"
  | .desperate =>
    "\nDESPERATION MODE - Player has serious problems:\n- Multiple threats affecting player simultaneously\n- Resources are scarce and overpriced\n- NPCs should notice player's weakness\n- Choices should involve difficult moral compromises\n- Show consequences of previous poor decisions\n"
  | .struggling =>
    "\nCHALLENGE MODE - Player faces significant obstacles:\n- Present meaningful but manageable risks\n- Make resources available but at fair cost\n- NPCs react neutrally but opportunities exist\n- Balance risk vs reward carefully\n- Show paths to improvement requiring sacrifice\n"
  | .stable =>
    "\nGROWTH MODE - Player is doing well:\n- Present opportunities for advancement\n- Allow player to help others or pursue goals\n- Resources available at normal prices\n- Focus on character development choices\n- Introduce new challenges appropriate to player's level\n"
  | .thriving =>
    "\nPOWER MODE - Player is thriving:\n- Present choices about using power responsibly\n- Allow player to affect larger events/NPCs\n- Introduce moral complexity and corruption temptations\n- Show how power can corrupt or inspire\n- Create scenarios where player's reputation matters\n"

/-- The `reputation_effects` dict of lines 317-324, as a lookup:
`none` exactly for reputations with no entry (`unknown`, `merchant`, and
any unrecognized string). -/
def reputation_effects (r : String) : Option String :=
  if r = "hero" then
    some "NPCs trust you, offer help, but expect heroic behavior"
  else if r = "murderer" then
    some "NPCs fear you, demand payment upfront, some flee"
  else if r = "thief" then
    some "NPCs guard possessions, watch you suspiciously"
  else if r = "diplomat" then
    some "NPCs respect you, offer information and fair deals"
  else if r = "corrupted" then
    some "NPCs sense darkness, react with fear or disgust"
  else if r = "feared" then
    some "NPCs submit to intimidation but hate you"
  else none

/-- Lines 326-327: the NPC-behavior line appended when
`state.reputation in reputation_effects`, empty otherwise. -/
def npc_behavior_section (r : String) : String :=
  match reputation_effects r with
  | some e => "\nNPC BEHAVIOR: " ++ e ++ "\n"
  | none => ""

/-- The resource-economy block of lines 330-339, with the player's gold
interpolated. -/
def resource_economy_block (gold : Nat) : String :=
  "\nRESOURCE ECONOMY:\n- Food costs 5-15 gold (player has " ++
    toString gold ++
    ")\n- Healing costs 20-50 gold\n- Magic services cost 30-100 gold\n- Make prices reflect player's desperate state if applicable\n\nCHOICE CONSEQUENCES:\nGenerate exactly two choices where consequences match current state:\n"

/-- The high-stakes choice template (lines 343-346), used when
`crisis in [CRITICAL, DESPERATE]`. -/
def choice_template_high_stakes : String :=
  "\nChoice A: HIGH RISK (20-40 health loss possible) / HIGH REWARD (significant gold/items)\nChoice B: SAFE OPTION (costs gold/food) / SURVIVAL FOCUSED (minimal gain but safer)\n"

/-- The moderate choice template (lines 348-351), used for all other
crisis levels. -/
def choice_template_normal : String :=
  "\nChoice A: MODERATE RISK (10-20 health loss) / GOOD REWARD (fair gold/experience gain)\nChoice B: LOW RISK (minor costs) / MODEST REWARD (small but reliable gain)\n"

/-- Lines 342-351: the two-way split on the crisis level selecting the
choice-consequence template. -/
def choice_consequence_block (crisis : CrisisLevel) : String :=
  if crisis = .critical ∨ crisis = .desperate then choice_template_high_stakes
  else choice_template_normal

/-- The fixed closing checklist of lines 353-365 (`\\n` in the Python
source is a literal backslash-n in the output, reproduced here). -/
def closing_checklist : String :=
  "\nSCENE GENERATION:\n1. Create engaging title reflecting current crisis level\n2. Write vivid description (2-3 sentences, use \\n for line breaks)\n3. Include summary of what happened since last scene\n4. Choose appropriate background color for mood\n5. Make choices feel meaningfully different\n6. Show how player's condition affects the situation\n7. Reflect reputation in NPC interactions\n8. Make resource scarcity feel real and impactful\n\nRemember: This player's choices have led to their current state. Show consequences!\n"

/-- `GameStateManager.generate_scene_prompt` (lines 255-367).  The
`previous_scene` parameter is accepted but never read by the source body;
it is kept here for the same signature. -/
def generate_scene_prompt (s : PlayerState) (theme : String)
    (previous_scene : Option (List (String × PyVal)))
    (choice_made : Option String) : String :=
  let crisis := get_crisis_level s
  let context := generate_consequence_context s choice_made
  "You are creating an interactive adventure scene for a " ++ theme ++
    " themed story.\n\n" ++ context ++ "\n\nSCENE REQUIREMENTS:\n" ++
  scene_requirements crisis ++
  npc_behavior_section s.reputation ++
  resource_economy_block s.gold ++
  choice_consequence_block crisis ++
  closing_checklist

/-- `GameStateManager.apply_choice_consequences` (lines 370-371): the body
is `return state` on its first line; everything after it is dead code. -/
def apply_choice_consequences (state : PlayerState) (choice_text : String)
    (scene_id : String) : PlayerState :=
  state

/-- `GameStateManager.is_dead` (lines 465-467): `state.health <= 0`,
which over the non-negative model is `health = 0`. -/
def is_dead (state : PlayerState) : Bool :=
  decide (state.health ≤ 0)

/-- `GameStateManager.handle_death` (lines 469-478): a fresh
`PlayerState()` carrying over only `deaths + 1`. -/
def handle_death (state : PlayerState) : PlayerState :=
  { defaultPlayerState with deaths := state.deaths + 1 }

/-- `health / max_health ≤ p / q` over the rationals is cross
multiplication, for `max_health ≥ 1`. -/
theorem ratio_le_iff (h m p q : Nat) (hm : 1 ≤ m) (hq : 0 < q) :
    ((h:ℚ)/(m:ℚ) ≤ (p:ℚ)/(q:ℚ)) ↔ q * h ≤ p * m := by
  have hm' : (0:ℚ) < (m:ℚ) := by exact_mod_cast Nat.lt_of_lt_of_le Nat.zero_lt_one hm
  have hq' : (0:ℚ) < (q:ℚ) := by exact_mod_cast hq
  rw [div_le_div_iff₀ hm' hq', mul_comm (h:ℚ) (q:ℚ)]
  exact_mod_cast Iff.rfl

/-- `p / q ≤ health / max_health` over the rationals is cross
multiplication, for `max_health ≥ 1`. -/
theorem ratio_ge_iff (h m p q : Nat) (hm : 1 ≤ m) (hq : 0 < q) :
    ((p:ℚ)/(q:ℚ) ≤ (h:ℚ)/(m:ℚ)) ↔ p * m ≤ q * h := by
  have hm' : (0:ℚ) < (m:ℚ) := by exact_mod_cast Nat.lt_of_lt_of_le Nat.zero_lt_one hm
  have hq' : (0:ℚ) < (q:ℚ) := by exact_mod_cast hq
  rw [div_le_div_iff₀ hq' hm', mul_comm (h:ℚ) (q:ℚ)]
  exact_mod_cast Iff.rfl

/-- The five-rule cascade exactly as the spec words it (spec section 4.1),
with `health/max_health` an exact rational ratio and first matching rule
winning; to be compared with the source translation `get_crisis_level`. -/
def crisis_level_spec (s : PlayerState) : CrisisLevel :=
  let ratio : ℚ := (s.health : ℚ) / (s.max_health : ℚ)
  if ratio ≤ 1/4 ∨ s.food = 0 ∨ 3 ≤ s.curses.length then
    .critical
  else if (ratio ≤ 2/5 ∧ s.food ≤ 1) ∨ 70 ≤ s.corruption then
    .desperate
  else if ratio ≤ 1/2 ∨ s.food ≤ 1 ∨ s.gold ≤ 5 ∨ 50 ≤ s.corruption then
    .struggling
  else if 7/10 ≤ ratio ∧ 2 ≤ s.food ∧ 20 ≤ s.gold then
    .stable
  else
    .thriving

/-- The claim's example state `health=100, max_health=100, food=3, gold=10,
corruption=0`, no curses (all remaining fields at their defaults). -/
def exampleDefaultState : PlayerState :=
  { defaultPlayerState with
      health := 100, max_health := 100, food := 3, gold := 10, corruption := 0 }

/-- C2: for every valid `PlayerState`, `get_crisis_level` equals the
five-rule first-match cascade written from the spec's words
(`crisis_level_spec`): CRITICAL on ratio ≤ 0.25 / no food / ≥ 3 curses;
else DESPERATE on (ratio ≤ 0.4 and food ≤ 1) or corruption ≥ 70; else
STRUGGLING on ratio ≤ 0.5 or food ≤ 1 or gold ≤ 5 or corruption ≥ 50;
else STABLE on ratio ≥ 0.7 and food ≥ 2 and gold ≥ 20; else THRIVING. -/
theorem crisis_level_matches_spec (s : PlayerState) (hv : s.valid) :
    get_crisis_level s = crisis_level_spec s := by
  obtain ⟨hm, -, -, -⟩ := hv
  have e1 : ((s.health:ℚ)/(s.max_health:ℚ) ≤ 1/4) ↔ 4 * s.health ≤ s.max_health := by
    simpa using ratio_le_iff s.health s.max_health 1 4 hm (by norm_num)
  have e2 : ((s.health:ℚ)/(s.max_health:ℚ) ≤ 2/5) ↔ 5 * s.health ≤ 2 * s.max_health := by
    simpa using ratio_le_iff s.health s.max_health 2 5 hm (by norm_num)
  have e3 : ((s.health:ℚ)/(s.max_health:ℚ) ≤ 1/2) ↔ 2 * s.health ≤ s.max_health := by
    simpa using ratio_le_iff s.health s.max_health 1 2 hm (by norm_num)
  have e4 : ((7:ℚ)/10 ≤ (s.health:ℚ)/(s.max_health:ℚ)) ↔ 7 * s.max_health ≤ 10 * s.health := by
    simpa using ratio_ge_iff s.health s.max_health 7 10 hm (by norm_num)
  unfold get_crisis_level crisis_level_spec
  simp only [e1, e2, e3, e4]

/-- C2 witness: at the claim's example state, `get_crisis_level` agrees
with the spec cascade, and both classify it `thriving`. -/
theorem crisis_level_matches_spec_witness :
    get_crisis_level exampleDefaultState = crisis_level_spec exampleDefaultState ∧
      get_crisis_level exampleDefaultState = CrisisLevel.thriving :=
  ⟨crisis_level_matches_spec exampleDefaultState (by decide), by decide⟩

/-- C3: for every valid `PlayerState`, a state with `food = 0` classifies
as `critical` (never anything better), and `get_crisis_level` is total,
returning one of the five defined crisis levels with no failure mode
(`max_health ≥ 1` keeps the Python division well-defined). -/
theorem crisis_level_food_zero_critical_and_total (s : PlayerState) (hv : s.valid) :
    (s.food = 0 → get_crisis_level s = CrisisLevel.critical) ∧
      (get_crisis_level s = CrisisLevel.critical ∨
       get_crisis_level s = CrisisLevel.desperate ∨
       get_crisis_level s = CrisisLevel.struggling ∨
       get_crisis_level s = CrisisLevel.stable ∨
       get_crisis_level s = CrisisLevel.thriving) := by
  constructor
  · intro h0
    unfold get_crisis_level
    simp [h0]
  · cases h : get_crisis_level s <;> simp

/-- A state with no food but maximal health and gold and no corruption. -/
def richStarvingState : PlayerState :=
  { defaultPlayerState with
      health := 1000, max_health := 1000, food := 0, gold := 100000,
      corruption := 0 }

/-- C3 witness: the rich starving state is valid and classifies critical. -/
theorem crisis_level_food_zero_critical_witness :
    get_crisis_level richStarvingState = CrisisLevel.critical :=
  (crisis_level_food_zero_critical_and_total richStarvingState (by decide)).1 rfl

/-- The per-dimension labeler exactly as the claim words it, with the food
tiers as a case split on the meal count; to be compared with the source
translation `get_resource_status`. -/
def resource_status_spec (s : PlayerState) : ResourceStatus where
  health :=
    if s.health ≤ 30 then "CRITICAL - near death"
    else if s.health ≤ 60 then "LOW - badly injured"
    else "GOOD - healthy"
  food :=
    match s.food with
    | 0 => "STARVING - immediate danger"
    | 1 => "HUNGRY - need food soon"
    | _ + 2 => "FED - adequate supplies"
  gold :=
    if s.gold ≤ 5 then "POOR - cannot afford basic items"
    else if s.gold ≤ 20 then "STRUGGLING - limited purchasing power"
    else "WEALTHY - can afford most things"
  corruption :=
    if s.corruption ≥ 70 then "DAMNED - soul nearly lost"
    else if s.corruption ≥ 40 then "CORRUPTED - moral decay spreading"
    else if s.corruption ≥ 20 then "TAINTED - darkness creeping in"
    else "PURE - soul intact"

/-- C4: `get_resource_status` is total, carries exactly the four keys
`health`, `food`, `gold`, `corruption` (in that insertion order), each
label determined independently by its own dimension with the claim's
thresholds and fixed tag-plus-qualifier strings (`resource_status_spec`). -/
theorem resource_status_matches_spec (s : PlayerState) :
    get_resource_status s = resource_status_spec s ∧
      (get_resource_status s).toPairs.map Prod.fst =
        ["health", "food", "gold", "corruption"] := by
  refine ⟨?_, rfl⟩
  unfold get_resource_status resource_status_spec
  rcases hf : s.food with - | - | n <;> simp [hf]

/-- C8: `apply_choice_consequences` is a no-op — it returns its input
state unchanged for every state, choice text, and scene id (the source
body is `return state` before any of its dead code). -/
theorem apply_choice_consequences_noop (state : PlayerState)
    (choice_text scene_id : String) :
    apply_choice_consequences state choice_text scene_id = state := rfl

/-- C9: `handle_death` returns the documented fresh-start defaults in
every field except `deaths`, which is the input's `deaths` plus one. -/
theorem handle_death_resets (s : PlayerState) :
    (handle_death s).health = 100 ∧ (handle_death s).max_health = 100 ∧
    (handle_death s).gold = 10 ∧ (handle_death s).food = 3 ∧
    (handle_death s).items = ["rusty_dagger"] ∧ (handle_death s).level = 1 ∧
    (handle_death s).experience = 0 ∧ (handle_death s).corruption = 0 ∧
    (handle_death s).reputation = "unknown" ∧
    (handle_death s).scene_history = [] ∧ (handle_death s).curses = [] ∧
    (handle_death s).permanent_injuries = [] ∧
    (handle_death s).last_choice_consequences = [] ∧
    (handle_death s).deaths = s.deaths + 1 :=
  ⟨rfl, rfl, rfl, rfl, rfl, rfl, rfl, rfl, rfl, rfl, rfl, rfl, rfl, rfl⟩

/-- C10: the crisis classifier reads only `health`, `max_health`, `food`,
`gold`, `corruption`, and the number of curses — two valid states that
agree on those six values get the same crisis level, whatever their
items, level, experience, reputation, deaths, history, injuries, or
last-choice consequences. -/
theorem crisis_level_depends_only_on_six (s₁ s₂ : PlayerState)
    (hv₁ : s₁.valid) (hv₂ : s₂.valid)
    (hh : s₁.health = s₂.health) (hm : s₁.max_health = s₂.max_health)
    (hf : s₁.food = s₂.food) (hg : s₁.gold = s₂.gold)
    (hc : s₁.corruption = s₂.corruption)
    (hcs : s₁.curses.length = s₂.curses.length) :
    get_crisis_level s₁ = get_crisis_level s₂ := by
  unfold get_crisis_level
  rw [hh, hm, hf, hg, hc, hcs]

/-- A state agreeing with the default on the six classifier inputs but
differing in items, level, experience, reputation, deaths, history,
injuries, and last-choice consequences. -/
def decoratedState : PlayerState :=
  { defaultPlayerState with
      items := [], level := 5, experience := 900, reputation := "hero",
      deaths := 2, scene_history := ["cave", "bridge"],
      permanent_injuries := ["limp"],
      last_choice_consequences := [("gold", PyVal.int 12)] }

/-- C10 witness: the default state and the decorated state classify the
same. -/
theorem crisis_level_depends_only_on_six_witness :
    get_crisis_level defaultPlayerState = get_crisis_level decoratedState :=
  crisis_level_depends_only_on_six defaultPlayerState decoratedState
    (by decide) (by decide) rfl rfl rfl rfl rfl rfl

/-- C5: the composer is deterministic — two calls of
`generate_scene_prompt` with identical state, theme, and previous-choice
inputs produce byte-identical directive text (the composer performs no
randomness; the unused `previous_scene` argument need not even agree). -/
theorem generate_scene_prompt_deterministic (s₁ s₂ : PlayerState)
    (t₁ t₂ : String) (p₁ p₂ : Option (List (String × PyVal)))
    (c₁ c₂ : Option String)
    (hs : s₁ = s₂) (ht : t₁ = t₂) (hc : c₁ = c₂) :
    generate_scene_prompt s₁ t₁ p₁ c₁ = generate_scene_prompt s₂ t₂ p₂ c₂ := by
  subst hs ht hc
  rfl

/-- C5 witness: two composer calls on the default state agree. -/
theorem generate_scene_prompt_deterministic_witness :
    generate_scene_prompt defaultPlayerState "fantasy" none (some "rest") =
      generate_scene_prompt defaultPlayerState "fantasy" none (some "rest") :=
  generate_scene_prompt_deterministic defaultPlayerState defaultPlayerState
    "fantasy" "fantasy" none none (some "rest") (some "rest") rfl rfl rfl

/-- C6: the directive decomposes around the NPC-behavior section, which is
exactly the fixed lookup line for each of the six recognized reputations
and empty for `unknown` and `merchant`. -/
theorem npc_behavior_lookup (s : PlayerState) (theme : String)
    (prev : Option (List (String × PyVal))) (c : Option String)
    (hv : s.valid) :
    (∃ pre post, generate_scene_prompt s theme prev c =
        pre ++ npc_behavior_section s.reputation ++ post) ∧
    (s.reputation = "hero" → npc_behavior_section s.reputation =
      "\nNPC BEHAVIOR: NPCs trust you, offer help, but expect heroic behavior\n") ∧
    (s.reputation = "murderer" → npc_behavior_section s.reputation =
      "\nNPC BEHAVIOR: NPCs fear you, demand payment upfront, some flee\n") ∧
    (s.reputation = "thief" → npc_behavior_section s.reputation =
      "\nNPC BEHAVIOR: NPCs guard possessions, watch you suspiciously\n") ∧
    (s.reputation = "diplomat" → npc_behavior_section s.reputation =
      "\nNPC BEHAVIOR: NPCs respect you, offer information and fair deals\n") ∧
    (s.reputation = "corrupted" → npc_behavior_section s.reputation =
      "\nNPC BEHAVIOR: NPCs sense darkness, react with fear or disgust\n") ∧
    (s.reputation = "feared" → npc_behavior_section s.reputation =
      "\nNPC BEHAVIOR: NPCs submit to intimidation but hate you\n") ∧
    (s.reputation = "unknown" ∨ s.reputation = "merchant" →
      npc_behavior_section s.reputation = "") := by
  refine ⟨⟨"You are creating an interactive adventure scene for a " ++ theme ++
      " themed story.\n\n" ++ generate_consequence_context s c ++
      "\n\nSCENE REQUIREMENTS:\n" ++ scene_requirements (get_crisis_level s),
    resource_economy_block s.gold ++
      choice_consequence_block (get_crisis_level s) ++ closing_checklist,
    ?_⟩, ?_, ?_, ?_, ?_, ?_, ?_, ?_⟩
  · unfold generate_scene_prompt
    simp [String.append_assoc]
  · intro h; rw [h]; rfl
  · intro h; rw [h]; rfl
  · intro h; rw [h]; rfl
  · intro h; rw [h]; rfl
  · intro h; rw [h]; rfl
  · intro h; rw [h]; rfl
  · rintro (h | h) <;> rw [h] <;> rfl

/-- The claim's third example state: a hero-reputed default player. -/
def heroState : PlayerState := { defaultPlayerState with reputation := "hero" }

/-- C6 witness: the directive for a hero-reputed state contains the hero
NPC-behavior line. -/
theorem npc_behavior_lookup_witness :
    ∃ pre post, generate_scene_prompt heroState "fantasy" none none =
      pre ++
        "\nNPC BEHAVIOR: NPCs trust you, offer help, but expect heroic behavior\n"
        ++ post := by
  obtain ⟨⟨pre, post, hdec⟩, hhero, -⟩ :=
    npc_behavior_lookup heroState "fantasy" none none (by decide)
  exact ⟨pre, post, by rw [hdec, hhero rfl]⟩

/-- C7: the directive decomposes around the choice-consequence block,
which is the high-risk/high-reward-vs-safe template exactly when the
crisis level is `critical` or `desperate`, and the
moderate-risk-vs-low-risk template for `struggling`, `stable`, and
`thriving`; the two templates are distinct, so never both appear there. -/
theorem choice_block_two_way_split (s : PlayerState) (theme : String)
    (prev : Option (List (String × PyVal))) (c : Option String)
    (hv : s.valid) :
    (∃ pre, generate_scene_prompt s theme prev c =
        pre ++ choice_consequence_block (get_crisis_level s) ++
          closing_checklist) ∧
    (get_crisis_level s = CrisisLevel.critical ∨
        get_crisis_level s = CrisisLevel.desperate →
      choice_consequence_block (get_crisis_level s) =
        choice_template_high_stakes) ∧
    (get_crisis_level s = CrisisLevel.struggling ∨
        get_crisis_level s = CrisisLevel.stable ∨
        get_crisis_level s = CrisisLevel.thriving →
      choice_consequence_block (get_crisis_level s) =
        choice_template_normal) ∧
    choice_template_high_stakes ≠ choice_template_normal := by
  refine ⟨⟨"You are creating an interactive adventure scene for a " ++ theme ++
      " themed story.\n\n" ++ generate_consequence_context s c ++
      "\n\nSCENE REQUIREMENTS:\n" ++ scene_requirements (get_crisis_level s) ++
      npc_behavior_section s.reputation ++ resource_economy_block s.gold,
    ?_⟩, ?_, ?_, ?_⟩
  · unfold generate_scene_prompt
    simp [String.append_assoc]
  · rintro (h | h) <;> rw [h] <;> rfl
  · rintro (h | h | h) <;> rw [h] <;> rfl
  · decide

/-- A desperate state: high corruption with otherwise-fine resources
(the spec's third example scenario). -/
def corruptedDesperateState : PlayerState :=
  { defaultPlayerState with health := 80, corruption := 75 }

/-- C7 witness: a corruption-75 state is desperate and its directive
carries the high-stakes choice template before the closing checklist. -/
theorem choice_block_two_way_split_witness :
    ∃ pre, generate_scene_prompt corruptedDesperateState "fantasy" none none =
      pre ++ choice_template_high_stakes ++ closing_checklist := by
  obtain ⟨⟨pre, hdec⟩, hhigh, -, -⟩ :=
    choice_block_two_way_split corruptedDesperateState "fantasy" none none
      (by decide)
  exact ⟨pre, by rw [hdec, hhigh (Or.inr (by decide))]⟩

/-- A stable state right at the 0.7 health-ratio boundary. -/
def stableBoundaryState : PlayerState :=
  { defaultPlayerState with
      health := 70, max_health := 100, food := 2, gold := 20 }

/-- The same state with health lowered to 60 and every other field fixed. -/
def stableBoundaryStateLowered : PlayerState :=
  { stableBoundaryState with health := 60 }

/-- C1 counterexample: lowering health alone from 70 to 60 (all other
fields fixed, both states valid) moves the crisis level from `stable` to
`thriving`, which is strictly LESS severe — decreasing health can produce
a less severe classification. -/
theorem crisis_level_not_monotone_in_health :
    stableBoundaryState.valid ∧ stableBoundaryStateLowered.valid ∧
    stableBoundaryStateLowered.health < stableBoundaryState.health ∧
    stableBoundaryStateLowered.max_health = stableBoundaryState.max_health ∧
    stableBoundaryStateLowered.gold = stableBoundaryState.gold ∧
    stableBoundaryStateLowered.food = stableBoundaryState.food ∧
    stableBoundaryStateLowered.items = stableBoundaryState.items ∧
    stableBoundaryStateLowered.level = stableBoundaryState.level ∧
    stableBoundaryStateLowered.experience = stableBoundaryState.experience ∧
    stableBoundaryStateLowered.corruption = stableBoundaryState.corruption ∧
    stableBoundaryStateLowered.reputation = stableBoundaryState.reputation ∧
    stableBoundaryStateLowered.deaths = stableBoundaryState.deaths ∧
    stableBoundaryStateLowered.scene_history = stableBoundaryState.scene_history ∧
    stableBoundaryStateLowered.curses = stableBoundaryState.curses ∧
    stableBoundaryStateLowered.permanent_injuries =
      stableBoundaryState.permanent_injuries ∧
    stableBoundaryStateLowered.last_choice_consequences =
      stableBoundaryState.last_choice_consequences ∧
    get_crisis_level stableBoundaryState = CrisisLevel.stable ∧
    get_crisis_level stableBoundaryStateLowered = CrisisLevel.thriving ∧
    severity (get_crisis_level stableBoundaryStateLowered) <
      severity (get_crisis_level stableBoundaryState) := by
  decide

/-- C1 (amended): decreasing health alone on a valid state never yields a
less severe crisis level, EXCEPT from `stable`: a stable state whose
health drops can classify `thriving` (when its ratio lands strictly
between 0.5 and 0.7 with food ≥ 2 and gold ≥ 20). -/
theorem crisis_level_health_monotone_amended (s : PlayerState) (h' : Nat)
    (hv : s.valid) (hle : h' ≤ s.health) :
    severity (get_crisis_level s) ≤
        severity (get_crisis_level { s with health := h' }) ∨
      (get_crisis_level s = CrisisLevel.stable ∧
        get_crisis_level { s with health := h' } = CrisisLevel.thriving) := by
  obtain ⟨hm, hh, hc, hl⟩ := hv
  unfold get_crisis_level
  dsimp only
  split_ifs <;>
    first
      | (left; decide)
      | (right; exact ⟨rfl, rfl⟩)
      | (exfalso; omega)

/-- C1 amended witness: lowering the default state's health from 100 to 30
keeps the classification at least as severe (thriving to struggling). -/
theorem crisis_level_health_monotone_amended_witness :
    severity (get_crisis_level defaultPlayerState) ≤
        severity (get_crisis_level { defaultPlayerState with health := 30 }) ∨
      (get_crisis_level defaultPlayerState = CrisisLevel.stable ∧
        get_crisis_level { defaultPlayerState with health := 30 } =
          CrisisLevel.thriving) :=
  crisis_level_health_monotone_amended defaultPlayerState 30 (by decide)
    (by decide)
